import Mathlib

/-!
# Campus marketplace backend — shallow embedding

A shallow embedding of the campus-commerce backend: the Pydantic entity
schemas (`schemas.py`) and the request handlers (`backend/main.py`), together
with a model of the document-store adapter (`database.py`, whose contract is
given by the design document's §4.1 since only its callers are present).

Python floats are modelled as exact rationals (`ℚ`); the store-assigned
ObjectId is modelled as a counter whose decimal string stands for
`str(ObjectId)`.  Python truthiness on optional strings (`if category:`,
`if os.getenv(...)`) is modelled by `truthyS`.
-/

namespace Campus

/-- A document field value (string, number, boolean, null, or a
store-assigned object id).  Mirrors the value shapes that actually occur in
the `product` collection's documents. -/
inductive DVal where
  | str (s : String)
  | num (q : ℚ)
  | bool (b : Bool)
  | null
  | oid (n : Nat)
deriving DecidableEq, Repr

/-- A stored document: an ordered association list of field name / value,
modelling a Python `dict`. -/
abbrev Doc : Type := List (String × DVal)

/-- Field lookup in a document (`doc.get(k)` / `doc[k]`). -/
def lookupD (k : String) : Doc → Option DVal
  | [] => none
  | (k', v) :: rest => if k' = k then some v else lookupD k rest

/-- Remove a field from a document (`doc.pop(k)` removes the first — and in a
Python dict, only — binding of `k`). -/
def eraseD (k : String) : Doc → Doc
  | [] => []
  | (k', v) :: rest => if k' = k then rest else (k', v) :: eraseD k rest

/-- Python truthiness of a `DVal` (`if doc.get("_id"):`).  An ObjectId is
always truthy; `""`, `0`, `False` and `None` are falsy. -/
def DVal.truthy : DVal → Bool
  | .str s => s ≠ ""
  | .num q => q ≠ 0
  | .bool b => b
  | .null => false
  | .oid _ => true

/-- The string form of a field value, as Python `str(...)` produces it for
the values we store.  `str` of the modelled ObjectId counter is its decimal
representation. -/
def DVal.toStr : DVal → String
  | .str s => s
  | .num q => toString q
  | .bool b => if b then "True" else "False"
  | .null => "None"
  | .oid n => toString n

/-- Python truthiness of an optional string (`if category:`), as applied to
`Optional[str]` values and to `os.getenv` results. -/
def truthyS : Option String → Bool
  | none => false
  | some s => s ≠ ""

/-! ## Entity schemas (`schemas.py`) -/

/-- `Product` — marketplace listing (validated shape).  `title` and
`category` are required `str` fields (any string), `price` a required float
with `ge=0`, `in_stock` defaults to `True`. -/
structure Product where
  title : String
  description : Option String
  price : ℚ
  category : String
  in_stock : Bool
  image : Option String
  seller_name : Option String
deriving DecidableEq, Repr

/-- A raw `/products` request body before schema validation: each field is
present (`some`) or absent/null (`none`). -/
structure RawProduct where
  title : Option String
  description : Option String
  price : Option ℚ
  category : Option String
  in_stock : Option Bool
  image : Option String
  seller_name : Option String
deriving DecidableEq, Repr

/-- Pydantic validation of a `Product` body: required fields must be
present, `price` must satisfy `ge=0`, `in_stock` defaults to `True`.
No constraint is placed on the content of `title` or `category`. -/
def Product.validate (r : RawProduct) : Except String Product :=
  match r.title, r.price, r.category with
  | some t, some p, some c =>
      if p < 0 then .error "price: ensure this value is greater than or equal to 0"
      else .ok { title := t, description := r.description, price := p,
                 category := c, in_stock := r.in_stock.getD true,
                 image := r.image, seller_name := r.seller_name }
  | none, _, _ => .error "title: field required"
  | _, none, _ => .error "price: field required"
  | _, _, none => .error "category: field required"

/-- `OrderItem` — cart line inside an order, with snapshot fields.
Schema: `price` has `ge=0`, `quantity` has `ge=1`. -/
structure OrderItem where
  product_id : String
  title : String
  price : ℚ
  quantity : Nat
  image : Option String
deriving DecidableEq, Repr

/-- `Order` — checkout payload.  `payment_method` defaults to `"COD"` and
`status` to `"pending"` at the schema level; `total_amount` has `ge=0`. -/
structure Order where
  buyer_name : String
  buyer_email : String
  items : List OrderItem
  payment_method : String
  status : String
  total_amount : ℚ
deriving DecidableEq, Repr

/-- The document inserted for a product: the Pydantic model's field set
(`.dict()`), optional fields as `null` when absent. -/
def optStr : Option String → DVal
  | none => .null
  | some s => .str s

/-- Field set of a validated `Product`, in declaration order. -/
def productToDoc (p : Product) : Doc :=
  [("title", .str p.title),
   ("description", optStr p.description),
   ("price", .num p.price),
   ("category", .str p.category),
   ("in_stock", .bool p.in_stock),
   ("image", optStr p.image),
   ("seller_name", optStr p.seller_name)]

/-! ## Document store adapter (`database.py`, modelled from the spec §4.1) -/

/-- The observable state of the document store: the `product` collection as
raw documents, the `order` collection as store-id / order pairs, the next
store-assigned identifier, and — when `failure` is set — a connection
failure mode in which every store operation raises that message. -/
structure Store where
  failure : Option String
  products : List Doc
  orders : List (Nat × Order)
  nextId : Nat
deriving DecidableEq, Repr

/-- The empty, connected store. -/
def Store.init : Store := { failure := none, products := [], orders := [], nextId := 1 }

/-- Modelled from the spec: `create_document("product", entity)` from the
missing `database.py` — inserts the entity's field set into the `product`
collection with a fresh store-assigned `_id`, returns the new identifier as
a string; raises a store error when the connection is unavailable. -/
def create_document_product (st : Store) (d : Doc) : Except String (String × Store) :=
  match st.failure with
  | some m => .error m
  | none => .ok (toString st.nextId,
      { st with products := st.products ++ [("_id", DVal.oid st.nextId) :: d],
                nextId := st.nextId + 1 })

/-- Modelled from the spec: `create_document("order", entity)` from the
missing `database.py` — inserts the order's field set into the `order`
collection with a fresh store-assigned identifier. -/
def create_document_order (st : Store) (o : Order) : Except String (String × Store) :=
  match st.failure with
  | some m => .error m
  | none => .ok (toString st.nextId,
      { st with orders := st.orders ++ [(st.nextId, o)],
                nextId := st.nextId + 1 })

/-- One clause of a structured store filter: exact field equality, or an
`$or` group of case-insensitive `$regex` conditions (field, pattern). -/
inductive Clause where
  | eq (field : String) (v : DVal)
  | orRegex (conds : List (String × String))
deriving DecidableEq, Repr

/-- Does list `b` start with list `a`? -/
def startsWithCL : List Char → List Char → Bool
  | [], _ => true
  | _ :: _, [] => false
  | a :: as, b :: bs => a == b && startsWithCL as bs

/-- Does `p` occur as a contiguous run inside the second list? -/
def containsCL (p : List Char) : List Char → Bool
  | [] => startsWithCL p []
  | c :: cs => startsWithCL p (c :: cs) || containsCL p cs

/-- Case-insensitive substring check: the store's semantics of
`{"$regex": pat, "$options": "i"}` for a plain (metacharacter-free)
pattern, per the spec's "case-insensitive substring match". -/
def ciContains (pat s : String) : Bool :=
  containsCL pat.toLower.toList s.toLower.toList

/-- A case-insensitive regex condition on one document field: matches only
when the field is present and holds a string containing the pattern. -/
def regexIMatch (d : Doc) (field pat : String) : Bool :=
  match lookupD field d with
  | some (.str s) => ciContains pat s
  | _ => false

/-- Whether a document satisfies one filter clause. -/
def matchesClause (d : Doc) : Clause → Bool
  | .eq f v => lookupD f d == some v
  | .orRegex conds => conds.any (fun fp => regexIMatch d fp.1 fp.2)

/-- Whether a document satisfies every clause of a filter (top-level filter
keys are conjoined). -/
def matchesFilter (d : Doc) (f : List Clause) : Bool :=
  f.all (matchesClause d)

/-- Modelled from the spec: `get_documents("product", filter, limit)` from
the missing `database.py` — returns the matching documents up to `limit` in
store order; raises a store error on connection failure; an empty result is
not an error. -/
def get_documents_product (st : Store) (f : List Clause) (limit : Nat) :
    Except String (List Doc) :=
  match st.failure with
  | some m => .error m
  | none => .ok ((st.products.filter (fun d => matchesFilter d f)).take limit)

/-! ## Request handlers (`backend/main.py`) -/

/-- An HTTP error raised by a handler (`HTTPException(status_code, detail)`). -/
structure HTTPError where
  status_code : Nat
  detail : String
deriving DecidableEq, Repr

/-- The `{"id": ...}` success body of the creation handlers. -/
structure CreateResp where
  id : String
deriving DecidableEq, Repr

/-- `_serialize(doc)`: copy the document and, when `_id` is present and
truthy, pop it and append a public `id` field holding its string form. -/
def _serialize (doc : Doc) : Doc :=
  match lookupD "_id" doc with
  | some v => if v.truthy then eraseD "_id" doc ++ [("id", DVal.str v.toStr)] else doc
  | none => doc

/-- `POST /products` — `create_product`: persist the validated product,
return `{"id": ...}`; a store failure becomes a 500 with its message. -/
def create_product (st : Store) (p : Product) : Except HTTPError CreateResp × Store :=
  match create_document_product st (productToDoc p) with
  | .ok (i, st') => (.ok { id := i }, st')
  | .error m => (.error { status_code := 500, detail := m }, st)

/-- The filter built by `list_products`: starts empty; a truthy `category`
adds an exact-equality key; a truthy `q` adds the `$or` group of three
case-insensitive regex conditions. -/
def build_filter (category q : Option String) : List Clause :=
  let f0 : List Clause := []
  let f1 := if truthyS category then f0 ++ [.eq "category" (.str (category.getD ""))] else f0
  if truthyS q then
    f1 ++ [.orRegex [("title", q.getD ""), ("description", q.getD ""), ("category", q.getD "")]]
  else f1

/-- `GET /products` — `list_products`: query the `product` collection with
the built filter and `limit`, serialize each result; a store failure
becomes a 500 with its message. -/
def list_products (st : Store) (category q : Option String) (limit : Nat) :
    Except HTTPError (List Doc) :=
  match get_documents_product st (build_filter category q) limit with
  | .ok docs => .ok (docs.map _serialize)
  | .error m => .error { status_code := 500, detail := m }

/-- `list_products` as called with its query-parameter default `limit = 50`. -/
def list_products_default (st : Store) (category q : Option String) :
    Except HTTPError (List Doc) :=
  list_products st category q 50

/-- The response body of `POST /seed`. -/
inductive SeedResp where
  | existsMsg (status message : String)
  | inserted (status : String) (count : Nat)
deriving DecidableEq, Repr

/-- The fixed demo catalogue inserted by `seed_products` (five documents,
written in the handler as plain dicts). -/
def demo_products : List Doc :=
  [[("title", .str "Maggi Bowl (Hot & Fresh)"),
    ("description", .str "Cooked to order at the canteen. Pickup in 10 mins."),
    ("price", .num 45),
    ("category", .str "Food"),
    ("in_stock", .bool true),
    ("image", .str "https://images.unsplash.com/photo-1526318472351-c75fcf070305?q=80&w=1200&auto=format&fit=crop"),
    ("seller_name", .str "Campus Canteen")],
   [("title", .str "Data Structures Notes (PDF)"),
    ("description", .str "Second-year topper notes. Clean and concise."),
    ("price", .num 79),
    ("category", .str "Notes"),
    ("in_stock", .bool true),
    ("image", .str "https://images.unsplash.com/photo-1524995997946-a1c2e315a42f?q=80&w=1200&auto=format&fit=crop"),
    ("seller_name", .str "Ananya (CSE)")],
   [("title", .str "College Hoodie (Navy)"),
    ("description", .str "Official club merchandise. Sizes S-XL."),
    ("price", .num 999),
    ("category", .str "Merch"),
    ("in_stock", .bool true),
    ("image", .str "https://images.unsplash.com/photo-1548883354-7622d03aca27?q=80&w=1200&auto=format&fit=crop"),
    ("seller_name", .str "Design Club")],
   [("title", .str "Event Pass - Battle of Bands"),
    ("description", .str "Entry ticket for Saturday 7 PM, Auditorium."),
    ("price", .num 199),
    ("category", .str "Events"),
    ("in_stock", .bool true),
    ("image", .str "https://images.unsplash.com/photo-1459749411175-04bf5292ceea?q=80&w=1200&auto=format&fit=crop"),
    ("seller_name", .str "Music Club")],
   [("title", .str "Exam Kit (Pens + Highlighter)"),
    ("description", .str "Everything you need for finals week."),
    ("price", .num 129),
    ("category", .str "Stationery"),
    ("in_stock", .bool true),
    ("image", .str "https://images.unsplash.com/photo-1481070555726-e2fe8357725c?q=80&w=1200&auto=format&fit=crop"),
    ("seller_name", .str "Stationery Shop")]]

/-- The seed handler's insertion loop (`for p in demo_products:
create_document("product", p)`), stopping at the first store failure. -/
def insertAll : Store → List Doc → Except String Store
  | st, [] => .ok st
  | st, d :: ds =>
      match create_document_product st d with
      | .ok (_, st') => insertAll st' ds
      | .error m => .error m

/-- `POST /seed` — `seed_products`: probe the `product` collection with one
document; if anything exists, report so without writing; otherwise insert
the demo catalogue and report the count.  Store failures become 500s. -/
def seed_products (st : Store) : Except HTTPError SeedResp × Store :=
  match get_documents_product st [] 1 with
  | .error m => (.error { status_code := 500, detail := m }, st)
  | .ok existing =>
      if existing ≠ [] then (.ok (.existsMsg "ok" "Products already exist"), st)
      else
        match insertAll st demo_products with
        | .ok st' => (.ok (.inserted "ok" demo_products.length), st')
        | .error m => (.error { status_code := 500, detail := m }, st)

/-- The total the order handler recomputes:
`sum(item.price * item.quantity for item in order.items)`. -/
def computedTotal (o : Order) : ℚ :=
  (o.items.map (fun i => i.price * (i.quantity : ℚ))).sum

/-- `POST /orders` — `create_order`: recompute the total; reject with
400 "Invalid total amount" when it differs from the declared total by more
than 0.01, before any store access; otherwise persist the order verbatim
and return `{"id": ...}`; a store failure becomes a 500. -/
def create_order (st : Store) (o : Order) : Except HTTPError CreateResp × Store :=
  if |computedTotal o - o.total_amount| > 1/100 then
    (.error { status_code := 400, detail := "Invalid total amount" }, st)
  else
    match create_document_order st o with
    | .ok (i, st') => (.ok { id := i }, st')
    | .error m => (.error { status_code := 500, detail := m }, st)

/-! ## Diagnostics handler (`GET /test`) -/

/-- The observable state of the module-level `db` handle as `test_database`
can see it: absent (`db is None`), connected with `list_collection_names`
succeeding, or connected with `list_collection_names` raising.  The
optional `name` models `db.name if hasattr(db, 'name')`. -/
inductive DbHandle where
  | absent
  | ok (name : Option String) (collections : List String)
  | listFails (name : Option String) (errMsg : String)
deriving DecidableEq, Repr

/-- The environment as read by `os.getenv` (an unset variable is `none`). -/
structure Env where
  database_url : Option String
  database_name : Option String
deriving DecidableEq, Repr

/-- The `/test` response body.  `database_url` and `database_name` start as
Python `None`, hence `Option String`. -/
structure TestResp where
  backend : String
  database : String
  database_url : Option String
  database_name : Option String
  connection_status : String
  collections : List String
deriving DecidableEq, Repr

/-- `GET /test` — `test_database`: build the status object, folding every
store condition into a status string; finally overwrite `database_url` and
`database_name` with the environment-variable presence checks. -/
def test_database (h : DbHandle) (env : Env) : Except HTTPError TestResp :=
  let r0 : TestResp :=
    { backend := "✅ Running", database := "❌ Not Available",
      database_url := none, database_name := none,
      connection_status := "Not Connected", collections := [] }
  let r1 :=
    match h with
    | .absent => { r0 with database := "⚠️  Available but not initialized" }
    | .ok nm cols =>
        { r0 with database := "✅ Connected & Working",
                  database_url := some "✅ Configured",
                  database_name := some (nm.getD "✅ Connected"),
                  connection_status := "Connected",
                  collections := cols.take 10 }
    | .listFails nm msg =>
        { r0 with database := "⚠️  Connected but Error: " ++ msg.take 50,
                  database_url := some "✅ Configured",
                  database_name := some (nm.getD "✅ Connected"),
                  connection_status := "Connected" }
  let r2 :=
    { r1 with
      database_url := some (if truthyS env.database_url then "✅ Set" else "❌ Not Set"),
      database_name := some (if truthyS env.database_name then "✅ Set" else "❌ Not Set") }
  .ok r2

/-! ## Handler calls as a state machine (for the lifecycle invariant) -/

/-- One HTTP request against the core, with its payload. -/
inductive Call where
  | root
  | createProduct (p : Product)
  | listProducts (category q : Option String) (limit : Nat)
  | seed
  | createOrder (o : Order)
  | testDb (h : DbHandle) (env : Env)

/-- The store state after handling one request (read-only handlers leave it
unchanged by construction of their embeddings, which return no store). -/
def step (st : Store) : Call → Store
  | .root => st
  | .createProduct p => (create_product st p).2
  | .listProducts _ _ _ => st
  | .seed => (seed_products st).2
  | .createOrder o => (create_order st o).2
  | .testDb _ _ => st

/-! ## Sample values for concrete instantiations -/

/-- A cart line: two Maggi bowls at 45 each. -/
def itemMaggi : OrderItem :=
  { product_id := "p1", title := "Maggi Bowl (Hot & Fresh)", price := 45,
    quantity := 2, image := none }

/-- An order whose declared total (95) disagrees with the recomputed total
(90) by more than the tolerance. -/
def orderTampered : Order :=
  { buyer_name := "Asha", buyer_email := "asha@example.com", items := [itemMaggi],
    payment_method := "COD", status := "pending", total_amount := 95 }

/-- An order whose declared total matches the recomputed total exactly,
with client-declared `status` and `payment_method`. -/
def orderValid : Order :=
  { buyer_name := "Asha", buyer_email := "asha@example.com", items := [itemMaggi],
    payment_method := "UPI", status := "paid", total_amount := 90 }

/-- A valid product payload. -/
def sampleProduct : Product :=
  { title := "USB-C Cable", description := some "1m braided cable", price := 149,
    category := "Electronics", in_stock := true, image := none,
    seller_name := some "Tech Club" }

/-- A raw `/products` body whose `title` is the empty string and whose other
required fields are present and in range. -/
def emptyTitleBody : RawProduct :=
  { title := some "", description := some "topper notes", price := some 10,
    category := some "Notes", in_stock := none, image := none, seller_name := none }

/-- The store after seeding an empty store. -/
def seededStore : Store := (seed_products Store.init).2

instance {ε α : Type} [DecidableEq ε] [DecidableEq α] : DecidableEq (Except ε α) :=
  fun x y =>
    match x, y with
    | .ok a, .ok b =>
        if h : a = b then .isTrue (by rw [h]) else .isFalse (fun he => by cases he; exact h rfl)
    | .ok _, .error _ => .isFalse (fun he => by cases he)
    | .error _, .ok _ => .isFalse (fun he => by cases he)
    | .error e, .error f =>
        if h : e = f then .isTrue (by rw [h]) else .isFalse (fun he => by cases he; exact h rfl)

/-! ## Helper lemmas -/

theorem toDigitsCore_len (b : Nat) :
    ∀ (fuel n : Nat) (ds : List Char), ds.length ≤ (Nat.toDigitsCore b fuel n ds).length := by
  intro fuel
  induction fuel with
  | zero => intro n ds; exact le_refl _
  | succ f ih =>
      intro n ds
      unfold Nat.toDigitsCore
      dsimp only
      split
      · simp
      · exact le_trans (by simp) (ih _ _)

/-- The decimal representation of a natural number is never the empty
string (so the public `id` of a stored document is non-empty). -/
theorem toString_nat_ne_empty (n : Nat) : toString n ≠ "" := by
  intro h
  have h1 : (toString n).length = 0 := by rw [h]; rfl
  have h2 : 0 < (toString n).length := by
    show 0 < (Nat.repr n).length
    show 0 < (Nat.toDigits 10 n).asString.length
    have hlen : (Nat.toDigits 10 n).asString.length = (Nat.toDigits 10 n).length := by
      simp [String.length, List.asString]
    rw [hlen]
    show 0 < (Nat.toDigitsCore 10 (n+1) n []).length
    unfold Nat.toDigitsCore
    dsimp only
    split
    · simp
    · calc 0 < ([Nat.digitChar (n % 10)] : List Char).length := by simp
        _ ≤ _ := toDigitsCore_len 10 _ _ _
  rw [h1] at h2
  exact Nat.lt_irrefl 0 h2

theorem lookupD_append (k : String) (a b : Doc) :
    lookupD k (a ++ b) =
      (match lookupD k a with
       | some v => some v
       | none => lookupD k b) := by
  induction a with
  | nil => rfl
  | cons kv rest ih =>
      obtain ⟨k', v⟩ := kv
      by_cases h : k' = k
      · simp [lookupD, h]
      · simp [lookupD, h, ih]

theorem lookupD_eraseD (k k' : String) (h : k ≠ k') (d : Doc) :
    lookupD k (eraseD k' d) = lookupD k d := by
  induction d with
  | nil => rfl
  | cons kv rest ih =>
      obtain ⟨a, v⟩ := kv
      by_cases ha : a = k'
      · subst ha
        have : a ≠ k := fun he => h he.symm
        simp [eraseD, lookupD, this]
      · by_cases hk : a = k
        · subst hk; simp [eraseD, lookupD, ha, h]
        · simp [eraseD, lookupD, ha, hk, ih]

/-! ## Claims -/

/-- C1: for every order payload, if the recomputed total Σ(price×quantity)
differs from the declared `total_amount` by more than 0.01, `create_order`
rejects with HTTP 400 and detail "Invalid total amount", and the store is
returned unchanged — the rejection happens before any persistence attempt,
whatever the store's state. -/
theorem create_order_rejects_tampered_total (st : Store) (o : Order)
    (h : |computedTotal o - o.total_amount| > 1/100) :
    create_order st o =
      (.error { status_code := 400, detail := "Invalid total amount" }, st) := by
  unfold create_order
  rw [if_pos h]

/-- C1 witness: the order with items `[{price:45, quantity:2}]` and
declared total 95 is rejected with a 400 and no store change. -/
theorem create_order_rejects_tampered_total_witness :
    |computedTotal orderTampered - orderTampered.total_amount| > 1/100 ∧
    create_order Store.init orderTampered =
      (.error { status_code := 400, detail := "Invalid total amount" }, Store.init) := by
  have h : |computedTotal orderTampered - orderTampered.total_amount| > 1/100 := by
    norm_num [computedTotal, orderTampered, itemMaggi]
  exact ⟨h, create_order_rejects_tampered_total Store.init orderTampered h⟩

/-- C2: for every order payload whose declared total matches the recomputed
total within 0.01: on a working store, `create_order` persists the order
verbatim (the appended entry is the submitted `Order` itself, so items with
their snapshot fields, `status` and `payment_method` are stored unchanged)
and returns `{id}` with the store-assigned identifier; if the store write
fails, the handler returns a 500 carrying the failure message as detail. -/
theorem create_order_persists_within_tolerance (st : Store) (o : Order)
    (h : |computedTotal o - o.total_amount| ≤ 1/100) :
    (st.failure = none →
      create_order st o =
        (.ok { id := toString st.nextId },
         { st with orders := st.orders ++ [(st.nextId, o)], nextId := st.nextId + 1 })) ∧
    (∀ m, st.failure = some m →
      create_order st o = (.error { status_code := 500, detail := m }, st)) := by
  have hn : ¬ (|computedTotal o - o.total_amount| > 1/100) := not_lt.mpr h
  constructor
  · intro hc
    unfold create_order create_document_order
    rw [if_neg hn, hc]
  · intro m hm
    unfold create_order create_document_order
    rw [if_neg hn, hm]

/-- C2 witness: the order with items `[{price:45, quantity:2}]` and declared
total 90 is persisted verbatim on the empty connected store and `{id}` is
returned. -/
theorem create_order_persists_within_tolerance_witness :
    |computedTotal orderValid - orderValid.total_amount| ≤ 1/100 ∧
    Store.init.failure = none ∧
    create_order Store.init orderValid =
      (.ok { id := "1" },
       { Store.init with orders := [(1, orderValid)], nextId := 2 }) := by
  have h : |computedTotal orderValid - orderValid.total_amount| ≤ 1/100 := by
    norm_num [computedTotal, orderValid, itemMaggi]
  refine ⟨h, rfl, ?_⟩
  exact (create_order_persists_within_tolerance Store.init orderValid h).1 rfl

theorem insertAll_obs (ds : List Doc) : ∀ (st : Store), st.failure = none →
    ∃ st', insertAll st ds = .ok st' ∧
      st'.products.map (eraseD "_id") = st.products.map (eraseD "_id") ++ ds ∧
      st'.products.length = st.products.length + ds.length ∧
      st'.orders = st.orders := by
  induction ds with
  | nil => intro st h; exact ⟨st, rfl, by simp, by simp, rfl⟩
  | cons d ds ih =>
      intro st h
      have h1 : insertAll st (d :: ds) =
          insertAll { st with products := st.products ++ [("_id", DVal.oid st.nextId) :: d],
                              nextId := st.nextId + 1 } ds := by
        simp only [insertAll, create_document_product, h]
      obtain ⟨st', hok, hmap, hlen, hord⟩ :=
        ih { st with products := st.products ++ [("_id", DVal.oid st.nextId) :: d],
                     nextId := st.nextId + 1 } h
      refine ⟨st', by rw [h1]; exact hok, ?_, ?_, hord⟩
      · rw [hmap]; simp [eraseD]
      · rw [hlen]; simp; omega

/-- C3: seeding is idempotent over the product collection.  On a working
store: when the product collection is empty, `seed_products` inserts
exactly the 5 demo product documents (each stored document minus its
store-assigned `_id` is the corresponding demo dict) and reports the count
inserted; when the collection is non-empty (found by the one-document
probe), it returns the "Products already exist" status and the store is
unchanged, so repeated invocations never duplicate the demo data. -/
theorem seed_products_idempotent (st : Store) (hconn : st.failure = none) :
    (st.products = [] →
      ∃ st', seed_products st = (.ok (.inserted "ok" 5), st') ∧
        st'.products.map (eraseD "_id") = demo_products ∧
        st'.products.length = 5 ∧
        st'.orders = st.orders) ∧
    (st.products ≠ [] →
      seed_products st = (.ok (.existsMsg "ok" "Products already exist"), st)) := by
  constructor
  · intro hps
    have hprobe : get_documents_product st [] 1 = .ok [] := by
      unfold get_documents_product
      rw [hconn, hps]
      rfl
    obtain ⟨st', hok, hmap, hlen, hord⟩ := insertAll_obs demo_products st hconn
    refine ⟨st', ?_, ?_, ?_, hord⟩
    · unfold seed_products
      rw [hprobe, hok]
      simp
      rfl
    · rw [hmap, hps]; simp
    · rw [hlen, hps]; rfl
  · intro hne
    have hmf : ∀ d : Doc, matchesFilter d [] = true := fun d => rfl
    have hprobe : get_documents_product st [] 1 = .ok (st.products.take 1) := by
      unfold get_documents_product
      rw [hconn]
      simp [hmf]
    have htake : st.products.take 1 ≠ [] := by
      cases hp : st.products with
      | nil => exact absurd hp hne
      | cons a l => simp
    unfold seed_products
    rw [hprobe]
    simp [htake]

/-- C3 witness: seeding the empty connected store inserts the 5 demo
documents; seeding the resulting store is a no-op reporting
"Products already exist". -/
theorem seed_products_idempotent_witness :
    Store.init.failure = none ∧ Store.init.products = [] ∧
    seededStore.failure = none ∧ seededStore.products ≠ [] ∧
    (∃ st', seed_products Store.init = (.ok (.inserted "ok" 5), st') ∧
      st'.products.map (eraseD "_id") = demo_products ∧
      st'.products.length = 5 ∧ st'.orders = Store.init.orders) ∧
    seed_products seededStore = (.ok (.existsMsg "ok" "Products already exist"), seededStore) :=
  ⟨rfl, rfl, rfl, by decide,
   (seed_products_idempotent Store.init rfl).1 rfl,
   (seed_products_idempotent seededStore rfl).2 (by decide)⟩

/-- C4: the filter built by the product listing.  With `q` present (and
non-empty, per the handler's truthiness test) the filter is the OR of
case-insensitive substring matches of `q` against `title`, `description`
and `category`; with `category` also present both constraints apply
conjointly; with only `category` present the filter is exact category
equality alone; at most `limit` documents are returned, and the handler's
`limit` parameter defaults to 50. -/
theorem list_products_filter_spec (st : Store) (c qs : String) (limit : Nat) (d : Doc)
    (hc : c ≠ "") (hq : qs ≠ "") :
    (matchesFilter d (build_filter (some c) (some qs)) =
      ((lookupD "category" d == some (.str c)) &&
       (regexIMatch d "title" qs || (regexIMatch d "description" qs ||
        regexIMatch d "category" qs)))) ∧
    (matchesFilter d (build_filter none (some qs)) =
      (regexIMatch d "title" qs || (regexIMatch d "description" qs ||
       regexIMatch d "category" qs))) ∧
    (matchesFilter d (build_filter (some c) none) =
      (lookupD "category" d == some (.str c))) ∧
    (∀ l, list_products st (some c) (some qs) limit = .ok l → l.length ≤ limit) ∧
    (list_products_default st (some c) (some qs) = list_products st (some c) (some qs) 50) := by
  refine ⟨?_, ?_, ?_, ?_, rfl⟩
  · simp [build_filter, truthyS, hc, hq, matchesFilter, matchesClause]
  · simp [build_filter, truthyS, hq, matchesFilter, matchesClause]
  · simp [build_filter, truthyS, hc, matchesFilter, matchesClause]
  · intro l hl
    unfold list_products get_documents_product at hl
    cases hfail : st.failure with
    | some m => rw [hfail] at hl; cases hl
    | none =>
        rw [hfail] at hl
        simp only [] at hl
        cases hl
        simp [List.length_take_le]

/-- C4 witness: with `category="Notes"`, `q="maggi"` and the seeded store,
the built filter denotes the conjunction of exact category equality with
the three-field case-insensitive substring OR-group, and at most `limit`
documents come back. -/
theorem list_products_filter_spec_witness :
    ("Notes" : String) ≠ "" ∧ ("maggi" : String) ≠ "" ∧
    ((matchesFilter [("title", .str "Maggi Bowl (Hot & Fresh)"), ("category", .str "Food")]
        (build_filter (some "Notes") (some "maggi")) =
      ((lookupD "category" [("title", .str "Maggi Bowl (Hot & Fresh)"), ("category", .str "Food")]
          == some (.str "Notes")) &&
       (regexIMatch [("title", .str "Maggi Bowl (Hot & Fresh)"), ("category", .str "Food")] "title" "maggi" ||
        (regexIMatch [("title", .str "Maggi Bowl (Hot & Fresh)"), ("category", .str "Food")] "description" "maggi" ||
         regexIMatch [("title", .str "Maggi Bowl (Hot & Fresh)"), ("category", .str "Food")] "category" "maggi")))) ∧
     (matchesFilter [("title", .str "Maggi Bowl (Hot & Fresh)"), ("category", .str "Food")]
        (build_filter none (some "maggi")) =
      (regexIMatch [("title", .str "Maggi Bowl (Hot & Fresh)"), ("category", .str "Food")] "title" "maggi" ||
       (regexIMatch [("title", .str "Maggi Bowl (Hot & Fresh)"), ("category", .str "Food")] "description" "maggi" ||
        regexIMatch [("title", .str "Maggi Bowl (Hot & Fresh)"), ("category", .str "Food")] "category" "maggi"))) ∧
     (matchesFilter [("title", .str "Maggi Bowl (Hot & Fresh)"), ("category", .str "Food")]
        (build_filter (some "Notes") none) =
      (lookupD "category" [("title", .str "Maggi Bowl (Hot & Fresh)"), ("category", .str "Food")]
          == some (.str "Notes"))) ∧
     (∀ l, list_products seededStore (some "Notes") (some "maggi") 50 = .ok l → l.length ≤ 50) ∧
     (list_products_default seededStore (some "Notes") (some "maggi") =
      list_products seededStore (some "Notes") (some "maggi") 50)) :=
  ⟨by decide, by decide,
   list_products_filter_spec seededStore "Notes" "maggi" 50
     [("title", .str "Maggi Bowl (Hot & Fresh)"), ("category", .str "Food")]
     (by decide) (by decide)⟩

/-- C9: the listing handler treats empty-string query parameters as absent:
`category=""` adds no category-equality clause, `q=""` adds no OR-group,
and listing with both empty equals listing with both omitted. -/
theorem list_products_empty_params_absent :
    (∀ q, build_filter (some "") q = build_filter none q) ∧
    (∀ c, build_filter c (some "") = build_filter c none) ∧
    (∀ st limit, list_products st (some "") (some "") limit =
      list_products st none none limit) := by
  refine ⟨fun q => rfl, fun c => rfl, fun st limit => rfl⟩

/-- C5 counterexample: a `/products` body whose `title` is the empty string
passes schema validation (the schema only requires `title` to be present,
with no non-empty constraint) and the handler persists the product and
returns `{id}` — creation is not rejected. -/
theorem empty_title_passes_validation :
    Product.validate emptyTitleBody =
      .ok { title := "", description := some "topper notes", price := 10,
            category := "Notes", in_stock := true, image := none, seller_name := none } ∧
    (create_product Store.init
      { title := "", description := some "topper notes", price := 10,
        category := "Notes", in_stock := true, image := none, seller_name := none }).1 =
      .ok { id := "1" } ∧
    (create_product Store.init
      { title := "", description := some "topper notes", price := 10,
        category := "Notes", in_stock := true, image := none, seller_name := none }).2.products.length
      = 1 := by
  refine ⟨?_, rfl, rfl⟩
  unfold Product.validate emptyTitleBody
  norm_num

/-- C5 amended: `Product.title` is required but unconstrained in content —
for every request body with `title=""` whose other required fields are
present and whose price is in range, schema validation succeeds with the
empty title, and on a working store product creation persists the document
and returns `{id}` rather than rejecting. -/
theorem empty_title_product_created (r : RawProduct) (st : Store) (q : ℚ) (c : String)
    (ht : r.title = some "") (hp : r.price = some q) (hq : 0 ≤ q) (hc : r.category = some c)
    (hconn : st.failure = none) :
    ∃ p, Product.validate r = .ok p ∧ p.title = "" ∧
      (create_product st p).1 = .ok { id := toString st.nextId } ∧
      (create_product st p).2.products.length = st.products.length + 1 := by
  have hv : Product.validate r =
      .ok { title := "", description := r.description, price := q, category := c,
            in_stock := r.in_stock.getD true, image := r.image,
            seller_name := r.seller_name } := by
    unfold Product.validate
    rw [ht, hp, hc]
    dsimp only
    rw [if_neg (not_lt.mpr hq)]
  refine ⟨_, hv, rfl, ?_, ?_⟩
  · unfold create_product create_document_product
    rw [hconn]
  · unfold create_product create_document_product
    rw [hconn]
    simp

/-- C5 amended witness: the concrete empty-title body is validated and
persisted on the empty connected store. -/
theorem empty_title_product_created_witness :
    emptyTitleBody.title = some "" ∧ emptyTitleBody.price = some 10 ∧
    (0 : ℚ) ≤ 10 ∧ emptyTitleBody.category = some "Notes" ∧
    Store.init.failure = none ∧
    (∃ p, Product.validate emptyTitleBody = .ok p ∧ p.title = "" ∧
      (create_product Store.init p).1 = .ok { id := toString Store.init.nextId } ∧
      (create_product Store.init p).2.products.length = Store.init.products.length + 1) :=
  ⟨rfl, rfl, by norm_num, rfl, rfl,
   empty_title_product_created emptyTitleBody Store.init 10 "Notes" rfl rfl (by norm_num) rfl rfl⟩

/-- C6: serialization renames only the internal identifier.  `_serialize`
leaves every field other than `_id` and `id` unchanged; and for every
product payload, create followed by list (no filters, collection within the
limit) returns the serialized new document, whose public `id` is the
non-empty string form of the store-assigned identifier, whose `_id` is
gone, and whose product fields all round-trip unchanged. -/
theorem serialize_round_trip :
    (∀ (d : Doc) (k : String), k ≠ "_id" → k ≠ "id" →
      lookupD k (_serialize d) = lookupD k d) ∧
    (∀ (st : Store) (p : Product) (limit : Nat), st.failure = none →
      st.products.length < limit →
      create_product st p =
        (.ok { id := toString st.nextId },
         { st with
             products := st.products ++ [("_id", DVal.oid st.nextId) :: productToDoc p],
             nextId := st.nextId + 1 }) ∧
      toString st.nextId ≠ "" ∧
      list_products
        { st with
            products := st.products ++ [("_id", DVal.oid st.nextId) :: productToDoc p],
            nextId := st.nextId + 1 } none none limit =
        .ok ((st.products ++ [("_id", DVal.oid st.nextId) :: productToDoc p]).map _serialize) ∧
      _serialize (("_id", DVal.oid st.nextId) :: productToDoc p) ∈
        (st.products ++ [("_id", DVal.oid st.nextId) :: productToDoc p]).map _serialize ∧
      lookupD "id" (_serialize (("_id", DVal.oid st.nextId) :: productToDoc p)) =
        some (.str (toString st.nextId)) ∧
      lookupD "_id" (_serialize (("_id", DVal.oid st.nextId) :: productToDoc p)) = none ∧
      lookupD "title" (_serialize (("_id", DVal.oid st.nextId) :: productToDoc p)) =
        some (.str p.title) ∧
      lookupD "description" (_serialize (("_id", DVal.oid st.nextId) :: productToDoc p)) =
        some (optStr p.description) ∧
      lookupD "price" (_serialize (("_id", DVal.oid st.nextId) :: productToDoc p)) =
        some (.num p.price) ∧
      lookupD "category" (_serialize (("_id", DVal.oid st.nextId) :: productToDoc p)) =
        some (.str p.category) ∧
      lookupD "in_stock" (_serialize (("_id", DVal.oid st.nextId) :: productToDoc p)) =
        some (.bool p.in_stock) ∧
      lookupD "image" (_serialize (("_id", DVal.oid st.nextId) :: productToDoc p)) =
        some (optStr p.image) ∧
      lookupD "seller_name" (_serialize (("_id", DVal.oid st.nextId) :: productToDoc p)) =
        some (optStr p.seller_name)) := by
  constructor
  · intro d k h1 h2
    unfold _serialize
    cases hid : lookupD "_id" d with
    | none => rfl
    | some v =>
        dsimp only
        by_cases ht : v.truthy
        · rw [if_pos ht, lookupD_append, lookupD_eraseD k "_id" h1]
          cases hk : lookupD k d with
          | none =>
              simp only [lookupD]
              rw [if_neg (fun h : "id" = k => h2 h.symm)]
          | some w => rfl
        · rw [if_neg ht]
  · intro st p limit hconn hlen
    have hcp : create_product st p =
        (.ok { id := toString st.nextId },
         { st with
             products := st.products ++ [("_id", DVal.oid st.nextId) :: productToDoc p],
             nextId := st.nextId + 1 }) := by
      unfold create_product create_document_product
      rw [hconn]
    refine ⟨hcp, toString_nat_ne_empty _, ?_, ?_, rfl, rfl, rfl, rfl, rfl, rfl, rfl, rfl, rfl⟩
    · unfold list_products get_documents_product
      have hf : ({ st with
          products := st.products ++ [("_id", DVal.oid st.nextId) :: productToDoc p],
          nextId := st.nextId + 1 } : Store).failure = none := hconn
      rw [hf]
      have hfilter :
          ((st.products ++ [("_id", DVal.oid st.nextId) :: productToDoc p]).filter
            (fun d => matchesFilter d (build_filter none none))) =
          st.products ++ [("_id", DVal.oid st.nextId) :: productToDoc p] :=
        List.filter_eq_self.mpr (fun a _ => rfl)
      have htake :
          ((st.products ++ [("_id", DVal.oid st.nextId) :: productToDoc p]).take limit) =
          st.products ++ [("_id", DVal.oid st.nextId) :: productToDoc p] :=
        List.take_of_length_le (by simp; omega)
      rw [hfilter, htake]
    · exact List.mem_map_of_mem _ (by simp)

/-- C6 witness: creating `sampleProduct` in the empty connected store and
listing returns its serialized document with non-empty `id` and unchanged
fields. -/
theorem serialize_round_trip_witness :
    Store.init.failure = none ∧ Store.init.products.length < 50 ∧
    toString Store.init.nextId ≠ "" ∧
    lookupD "id" (_serialize (("_id", DVal.oid Store.init.nextId) :: productToDoc sampleProduct)) =
      some (.str (toString Store.init.nextId)) ∧
    lookupD "title" (_serialize (("_id", DVal.oid Store.init.nextId) :: productToDoc sampleProduct)) =
      some (.str sampleProduct.title) := by
  obtain ⟨-, hne, -, -, hid, -, htitle, -⟩ :=
    serialize_round_trip.2 Store.init sampleProduct 50 rfl (by decide)
  exact ⟨rfl, by decide, hne, hid, htitle⟩

/-- C7: the diagnostics endpoint never fails the request: for every store
state (handle absent, connected, or a store call raising) and every
environment, `test_database` returns a status object — never an error
response — and its `collections` list holds at most 10 names. -/
theorem test_database_never_fails (h : DbHandle) (env : Env) :
    ∃ r, test_database h env = .ok r ∧ r.collections.length ≤ 10 := by
  cases h with
  | absent => exact ⟨_, rfl, by simp [test_database]⟩
  | ok nm cols =>
      refine ⟨_, rfl, ?_⟩
      simp [test_database, List.length_take_le]
  | listFails nm msg => exact ⟨_, rfl, by simp [test_database]⟩

/-- C10 counterexample: with `DATABASE_URL` set to the empty string (a set
variable), the response's `database_url` field is "❌ Not Set", while with
it set to a non-empty value the field is "✅ Set" — so the field is not
determined solely by whether the variable is set. -/
theorem test_database_env_set_empty_counterexample :
    (Env.mk (some "") (some "x")).database_url.isSome = true ∧
    ((test_database .absent (Env.mk (some "") (some "x"))).toOption.map
      TestResp.database_url) = some (some "❌ Not Set") ∧
    ((test_database .absent (Env.mk (some "mongodb://h") (some "x"))).toOption.map
      TestResp.database_url) = some (some "✅ Set") :=
  ⟨rfl, rfl, rfl⟩

/-- C10 amended: the response's `database_url` and `database_name` fields
are determined solely by whether the corresponding environment variables
are set to a non-empty value, independent of any store state — any
connection-derived values assigned earlier in the handler are
unconditionally overwritten before returning, so two runs differing only in
store state produce identical fields. -/
theorem test_database_env_fields_store_independent (h h' : DbHandle) (env : Env) :
    ∃ r r', test_database h env = .ok r ∧ test_database h' env = .ok r' ∧
      r.database_url = r'.database_url ∧ r.database_name = r'.database_name ∧
      r.database_url = some (if truthyS env.database_url then "✅ Set" else "❌ Not Set") ∧
      r.database_name = some (if truthyS env.database_name then "✅ Set" else "❌ Not Set") :=
  ⟨_, _, rfl, rfl, rfl, rfl, rfl, rfl⟩

theorem insertAll_mono (ds : List Doc) : ∀ (st st' : Store), insertAll st ds = .ok st' →
    (∀ d ∈ st.products, d ∈ st'.products) ∧ (∀ o ∈ st.orders, o ∈ st'.orders) := by
  induction ds with
  | nil =>
      intro st st' h
      cases h
      exact ⟨fun d hd => hd, fun o ho => ho⟩
  | cons d ds ih =>
      intro st st' h
      unfold insertAll at h
      cases hf : st.failure with
      | some m => simp [create_document_product, hf] at h
      | none =>
          simp only [create_document_product, hf] at h
          obtain ⟨h1, h2⟩ := ih _ _ h
          exact ⟨fun x hx => h1 x (List.mem_append_left _ hx), fun o ho => h2 o ho⟩

theorem step_preserves (st : Store) (c : Call) :
    (∀ d ∈ st.products, d ∈ (step st c).products) ∧
    (∀ o ∈ st.orders, o ∈ (step st c).orders) := by
  cases c with
  | root => exact ⟨fun d hd => hd, fun o ho => ho⟩
  | listProducts c q l => exact ⟨fun d hd => hd, fun o ho => ho⟩
  | testDb h e => exact ⟨fun d hd => hd, fun o ho => ho⟩
  | createProduct p =>
      unfold step create_product create_document_product
      cases hf : st.failure with
      | some m => simp [hf]
      | none =>
          simp only [hf]
          exact ⟨fun d hd => List.mem_append_left _ hd, fun o ho => ho⟩
  | createOrder o =>
      unfold step create_order create_document_order
      dsimp only
      by_cases ht : |computedTotal o - o.total_amount| > 1/100
      · rw [if_pos ht]
        exact ⟨fun d hd => hd, fun x hx => hx⟩
      · rw [if_neg ht]
        cases hf : st.failure with
        | some m => simp [hf]
        | none =>
            simp only [hf]
            exact ⟨fun d hd => hd, fun x hx => List.mem_append_left _ hx⟩
  | seed =>
      unfold step seed_products
      cases hp : get_documents_product st [] 1 with
      | error m => exact ⟨fun d hd => hd, fun o ho => ho⟩
      | ok ex =>
          dsimp only
          by_cases he : ex = []
          · subst he
            simp only [ne_eq, not_true_eq_false, if_false]
            cases hi : insertAll st demo_products with
            | error m => exact ⟨fun d hd => hd, fun o ho => ho⟩
            | ok st' => exact insertAll_mono demo_products st st' hi
          · simp only [ne_eq, he, not_false_eq_true, if_true]
            exact ⟨fun d hd => hd, fun o ho => ho⟩

/-- C8: lifecycle invariant — over every sequence of handler calls, every
previously persisted product document and order remains present unchanged
in the store afterwards: the handlers only ever create documents or run
read-only queries; none updates or deletes. -/
theorem lifecycle_no_update_no_delete (st : Store) (calls : List Call) :
    (∀ d ∈ st.products, d ∈ (calls.foldl step st).products) ∧
    (∀ o ∈ st.orders, o ∈ (calls.foldl step st).orders) := by
  induction calls generalizing st with
  | nil => exact ⟨fun d hd => hd, fun o ho => ho⟩
  | cons c cs ih =>
      simp only [List.foldl_cons]
      obtain ⟨h1, h2⟩ := step_preserves st c
      obtain ⟨g1, g2⟩ := ih (step st c)
      exact ⟨fun d hd => g1 d (h1 d hd), fun o ho => g2 o (h2 o ho)⟩

/-- A populated store used to instantiate the lifecycle invariant. -/
def stWit : Store :=
  { failure := none, products := [[("title", DVal.str "x")]],
    orders := [(7, orderValid)], nextId := 9 }

/-- C8 witness: across a seed, a product creation and an order creation,
the pre-existing product document and order of `stWit` survive unchanged. -/
theorem lifecycle_no_update_no_delete_witness :
    ([("title", DVal.str "x")] : Doc) ∈ stWit.products ∧
    (7, orderValid) ∈ stWit.orders ∧
    ([("title", DVal.str "x")] : Doc) ∈
      (([Call.seed, Call.createProduct sampleProduct, Call.createOrder orderValid].foldl
        step stWit).products) ∧
    (7, orderValid) ∈
      (([Call.seed, Call.createProduct sampleProduct, Call.createOrder orderValid].foldl
        step stWit).orders) := by
  have hd : ([("title", DVal.str "x")] : Doc) ∈ stWit.products := List.mem_singleton.mpr rfl
  have ho : (7, orderValid) ∈ stWit.orders := List.mem_singleton.mpr rfl
  have h := lifecycle_no_update_no_delete stWit
    [Call.seed, Call.createProduct sampleProduct, Call.createOrder orderValid]
  exact ⟨hd, ho, h.1 _ hd, h.2 _ ho⟩

end Campus
